import Mathlib

/-!
Verification development for the Claude-Code-Time-Tracker-WSL session tracker.

Shallow embedding of the session tracker (scripts/session-tracker.js v2, the
accompanying config.js and auto-detector.js). Conventions of the embedding:

* Timestamps are modelled as integers (milliseconds since the epoch). The JS
  code stores ISO strings and converts with new Date(s).getTime(); both
  directions are the identity here. JS numbers are modelled as exact
  integers; the only place real-number division occurs (the day counts in
  the rollover checks) is a comparison against a positive constant divisor
  and is modelled by the equivalent integer inequality (daysSinceAtLeast).
* Absent JS object fields are modelled with Option; null is modelled as
  none. JS truthiness tests on strings and numbers are modelled by the
  helpers jsOrStr and jsOrNum below (the empty string and 0 are falsy).
* The persisted store file is modelled as Option StoreDoc: none stands for
  a missing (or unparseable) file, for which loadData returns a fresh
  document.
* Ambient effects the code performs (Date.now, process.cwd, randomUUID,
  the loaded configuration, project detection, the claude CLI probe) are
  gathered in an Env record and passed explicitly, so that every function
  is a pure function of its document argument and the environment.
-/

namespace SessionTracker

/-- JS x || d for an optional string x: undefined and the empty string are
falsy and select the default. -/
def jsOrStr : Option String → String → String
  | none, d => d
  | some s, d => if s = "" then d else s

/-- JS x || d for an optional number x: undefined and 0 are falsy and select
the default. -/
def jsOrNum : Option Int → Int → Int
  | none, d => d
  | some n, d => if n = 0 then d else n

/-- JS truthiness of an optional number (undefined and 0 are falsy). -/
def jsNumTruthy : Option Int → Bool
  | none => false
  | some n => n != 0

/-- JS x + n where x may be undefined: undefined + n is NaN, which is
modelled as an absent value. -/
def jsAddNum : Option Int → Int → Option Int
  | none, _ => none
  | some a, b => some (a + b)

/-- Token usage counters of a session (the tokens object). -/
structure Tokens where
  input : Int
  output : Int
  cacheCreate : Int
  cacheRead : Int
  deriving DecidableEq, Repr

/-- The warnings object of a session; JS keys 30min and 10min. -/
structure Warnings where
  min30 : Bool
  min10 : Bool
  deriving DecidableEq, Repr

/-- Project metadata attached to a session. ProjectDetector.detectProject
reads the filesystem, so it lives in Env; git and packageInfo are opaque
collaborator data, kept as an optional marker string. -/
structure Project where
  name : String
  path : String
  ptype : String      -- JS field name: type (a Lean keyword)
  git : Option String
  tags : Option (List String)
  deriving DecidableEq, Repr

/-- A timer mode configuration (config.js timerModes entries). -/
structure TimerConfig where
  name : String
  duration : Int
  warnings : List Int
  autoEnd : Bool
  breakDuration : Option Int
  description : String
  deriving DecidableEq, Repr

/-- One session record of the persisted store. -/
structure Session where
  id : Option String
  startTime : Int
  endTime : Option Int
  duration : Option Int
  mode : Option String
  workingDirectory : Option String
  project : Option Project
  tags : Option (List String)
  warnings : Option Warnings
  tokens : Option Tokens
  environment : Option String
  claudeSessionId : Option String
  claudeCodeVersion : Option String
  timerConfig : Option TimerConfig
  deriving DecidableEq, Repr

/-- Result of getClaudeCodeStatus (the claude CLI probe). -/
structure ClaudeStatus where
  authenticated : Bool
  version : Option String
  error : Option String
  deriving DecidableEq, Repr

/-- The autoDetection block of the store document. -/
structure AutoDetection where
  enabled : Bool
  lastScan : Option Int
  activeSessions : List String
  deriving DecidableEq, Repr

/-- The persisted store document (.claude-sessions.json). -/
structure StoreDoc where
  version : Option String
  sessions : List Session
  totalUsage : Option Int
  lastReset : Option Int
  monthlySessionCount : Option Int
  lastMonthReset : Option Int
  autoDetection : Option AutoDetection
  lastUpdate : Option Int
  claudeCodeStatus : Option ClaudeStatus
  deriving DecidableEq, Repr

/-- The ambient state the tracker reads: the clock, the working directory,
the UUID generator (one value for the directly generated session id and an
indexed supply for ids minted during migration), the claude CLI probe, the
project detector, and the relevant configuration values. -/
structure Env where
  now : Int
  cwd : String
  uuid : String
  uuids : Nat → String
  claudeStatus : ClaudeStatus
  detectProject : String → Project
  projectAutoDetect : Bool
  sessionsAutoDetect : Bool
  timerModes : List (String × TimerConfig)

/-- Session duration cap: MAX_HOURS * 60 * 60 * 1000 with the default
sessions.maxHours = 5. -/
def MAX_SESSION_MS : Int := 5 * 60 * 60 * 1000

/-- Default sessions.warningTimes.warning30. -/
def WARNING_30_MIN : Int := 30 * 60 * 1000

/-- Default sessions.warningTimes.warning10. -/
def WARNING_10_MIN : Int := 10 * 60 * 1000

/-- The default claude-max timer mode of config.js. -/
def claudeMaxDefault : TimerConfig :=
  { name := "Claude Max"
    duration := 5 * 60 * 60 * 1000
    warnings := [30 * 60 * 1000, 10 * 60 * 1000]
    autoEnd := false
    breakDuration := none
    description := "Standard 5-hour Claude Code session" }

/-- The default pomodoro timer mode of config.js. -/
def pomodoroDefault : TimerConfig :=
  { name := "Pomodoro"
    duration := 25 * 60 * 1000
    warnings := [5 * 60 * 1000]
    autoEnd := true
    breakDuration := some (5 * 60 * 1000)
    description := "Pomodoro Technique: 25min work + 5min break" }

/-- The default deep-work timer mode of config.js. -/
def deepWorkDefault : TimerConfig :=
  { name := "Deep Work"
    duration := 90 * 60 * 1000
    warnings := [15 * 60 * 1000, 5 * 60 * 1000]
    autoEnd := true
    breakDuration := none
    description := "Deep work session: 90 minutes of focused work" }

/-- The default quick-fix timer mode of config.js. -/
def quickFixDefault : TimerConfig :=
  { name := "Quick Fix"
    duration := 15 * 60 * 1000
    warnings := [5 * 60 * 1000]
    autoEnd := true
    breakDuration := none
    description := "Quick fix session: 15 minutes for small tasks" }

/-- The default custom timer mode of config.js. -/
def customDefault : TimerConfig :=
  { name := "Custom"
    duration := 60 * 60 * 1000
    warnings := [10 * 60 * 1000]
    autoEnd := false
    breakDuration := none
    description := "Custom duration timer" }

/-- The timerModes table of the default configuration. -/
def defaultTimerModes : List (String × TimerConfig) :=
  [("claude-max", claudeMaxDefault), ("pomodoro", pomodoroDefault),
   ("deep-work", deepWorkDefault), ("quick-fix", quickFixDefault),
   ("custom", customDefault)]

/-- path.basename: the last path component. Only its shape matters here (it
feeds the fallback project name). -/
def basename (p : String) : String :=
  (p.splitOn "/").getLastD p

/-- The fallback project literal used when project.autoDetect is off. -/
def fallbackProject (wd : String) : Project :=
  { name := basename wd, path := wd, ptype := "unknown", git := none, tags := none }

/-- Config.getTimerMode: the configured entry for the mode name, falling
back to the default claude-max configuration. -/
def getTimerMode (env : Env) (mode : String) : TimerConfig :=
  (env.timerModes.lookup mode).getD claudeMaxDefault

/-- migrateDataStructure, per-session part. A session that already carries
both a project and a tokens object is returned unchanged; otherwise it is
rebuilt in the v2 shape. The index threads the UUID supply for sessions
missing an id. -/
def migrateSession (env : Env) (i : Nat) (session : Session) : Session :=
  if session.project.isSome && session.tokens.isSome then session
  else
    let workingDir := jsOrStr session.workingDirectory env.cwd
    { id := some (jsOrStr session.id (env.uuids i))
      startTime := session.startTime
      endTime := session.endTime
      duration := session.duration
      mode := some "claude-max"
      workingDirectory := some workingDir
      project := some (if env.projectAutoDetect then env.detectProject workingDir
                       else fallbackProject workingDir)
      tags := some []
      warnings := some { min30 := false, min10 := false }
      tokens := some { input := 0, output := 0, cacheCreate := 0, cacheRead := 0 }
      environment := some (jsOrStr session.environment "WSL")
      claudeSessionId := session.claudeSessionId
      claudeCodeVersion := session.claudeCodeVersion
      timerConfig := none }

/-- The session map of migrateDataStructure with the UUID supply threaded
by position. -/
def migrateSessions (env : Env) : Nat → List Session → List Session
  | _, [] => []
  | i, s :: rest => migrateSession env i s :: migrateSessions env (i + 1) rest

/-- migrateDataStructure: documents already at version 2.0.0 are returned
unchanged; otherwise every session is mapped to the v2 shape and the
top-level fields are rebuilt (fields not in the v2 literal, such as
lastUpdate and claudeCodeStatus, are dropped). -/
def migrateDataStructure (env : Env) (data : StoreDoc) : StoreDoc :=
  if data.version = some "2.0.0" then data
  else
    { version := some "2.0.0"
      sessions := migrateSessions env 0 data.sessions
      totalUsage := some (jsOrNum data.totalUsage 0)
      lastReset := some (data.lastReset.getD env.now)
      monthlySessionCount := some (jsOrNum data.monthlySessionCount 0)
      lastMonthReset := some (data.lastMonthReset.getD env.now)
      autoDetection := some { enabled := env.sessionsAutoDetect, lastScan := none,
                              activeSessions := [] }
      lastUpdate := none
      claudeCodeStatus := none }

/-- The fresh empty document loadData returns when the file is absent or
unparseable. -/
def freshDoc (env : Env) : StoreDoc :=
  { version := some "2.0.0"
    sessions := []
    totalUsage := some 0
    lastReset := some env.now
    monthlySessionCount := some 0
    lastMonthReset := some env.now
    autoDetection := some { enabled := env.sessionsAutoDetect, lastScan := none,
                            activeSessions := [] }
    lastUpdate := none
    claudeCodeStatus := none }

/-- loadData: parse the session file and migrate it, or return a fresh
document when the file is absent or unparseable (both modelled by none). -/
def loadData (env : Env) (file : Option StoreDoc) : StoreDoc :=
  match file with
  | some data => migrateDataStructure env data
  | none => freshDoc env

/-- saveData: stamp lastUpdate with the current time and claudeCodeStatus
with the current CLI probe result, then write the whole document. -/
def saveData (env : Env) (data : StoreDoc) : StoreDoc :=
  { data with lastUpdate := some env.now, claudeCodeStatus := some env.claudeStatus }

/-- Milliseconds per day, the divisor 1000*60*60*24 of the rollover
checks. -/
def msPerDay : Int := 1000 * 60 * 60 * 24

/-- The rollover comparison (now - t) / msPerDay >= days. The JS code
divides in real arithmetic; since the divisor is a positive constant the
comparison is equivalent to the integer inequality below, which is the form
used here so that every definition evaluates by kernel reduction. -/
def daysSinceAtLeast (now t days : Int) : Prop :=
  days * msPerDay ≤ now - t

instance (now t days : Int) : Decidable (daysSinceAtLeast now t days) :=
  Int.decLe _ _

/-- The monthly-counter reset block at the top of start(). A missing
lastMonthReset parses to an invalid date, whose NaN day count fails the
comparison, so nothing is reset. -/
def monthlyRollover (now : Int) (data : StoreDoc) : StoreDoc :=
  match data.lastMonthReset with
  | none => data
  | some t =>
      if daysSinceAtLeast now t 30 then
        { data with monthlySessionCount := some 0, lastMonthReset := some now }
      else data

/-- The daily-usage reset block at the top of start(); same NaN convention
as the monthly one. -/
def dailyRollover (now : Int) (data : StoreDoc) : StoreDoc :=
  match data.lastReset with
  | none => data
  | some t =>
      if daysSinceAtLeast now t 1 then
        { data with totalUsage := some 0, lastReset := some now }
      else data

/-- scheduleWarnings: the fixed-constant scheduler (30-minute warning,
10-minute warning, expiry, all against MAX_SESSION_MS). clearTimeout of the
previous schedule is implicit: the result replaces any earlier schedule.
The value is the list of absolute fire times armed. -/
def scheduleWarnings (now sessionStart : Int) : List Int :=
  let startTime := sessionStart
  let warning30Time := startTime + (MAX_SESSION_MS - WARNING_30_MIN)
  let warning10Time := startTime + (MAX_SESSION_MS - WARNING_10_MIN)
  let expiryTime := startTime + MAX_SESSION_MS
  (if 0 < warning30Time - now then [warning30Time] else []) ++
  (if 0 < warning10Time - now then [warning10Time] else []) ++
  (if 0 < expiryTime - now then [expiryTime] else [])

/-- scheduleWarningsForMode: one timeout per configured warning offset that
is still in the future, then either the auto-end timeout or the expiry
notification timeout at the expiry time if it is still in the future. The
value is the list of absolute fire times armed. -/
def scheduleWarningsForMode (now sessionStart : Int) (timerConfig : TimerConfig) :
    List Int :=
  let startTime := sessionStart
  let expiryTime := startTime + timerConfig.duration
  let warningFires :=
    (timerConfig.warnings.filter
      (fun warningTime => decide (0 < expiryTime - warningTime - now))).map
      (fun warningTime => expiryTime - warningTime)
  let endFires :=
    if timerConfig.autoEnd then
      (if 0 < expiryTime - now then [expiryTime] else [])
    else
      (if 0 < expiryTime - now then [expiryTime] else [])
  warningFires ++ endFires

/-- All fire times an arming of the given config would produce if nothing
were in the past: one per warning offset plus the expiry time. -/
def allFireTimes (sessionStart : Int) (timerConfig : TimerConfig) : List Int :=
  timerConfig.warnings.map (fun w => sessionStart + timerConfig.duration - w) ++
    [sessionStart + timerConfig.duration]

/-- ProjectDetector.validateTags: keep non-blank strings, lower-case them,
strip characters outside a-z, 0-9, dash and underscore, drop entries that
became empty, cap at 10 tags. -/
def validateTags (tags : List String) : List String :=
  let allowed : Char → Bool := fun c =>
    (Char.ofNat 97 ≤ c && c ≤ Char.ofNat 122) || c.isDigit || c = Char.ofNat 45 ||
      c = Char.ofNat 95
  ((tags.filter (fun tag => tag.trim.length > 0)).map
      (fun tag => String.mk ((tag.trim.toLower).toList.filter allowed))
    |>.filter (fun tag => tag.length > 0)).take 10

/-- The result of start(): the persisted file afterwards and the schedule
of armed fire times. -/
structure StartResult where
  file : Option StoreDoc
  armed : List Int
  deriving DecidableEq, Repr

/-- The document start() works on: the loaded store after the monthly and
daily rollover blocks. -/
def startData (env : Env) (file : Option StoreDoc) : StoreDoc :=
  dailyRollover env.now (monthlyRollover env.now (loadData env file))

/-- start(mode, customDuration, customTags): if an active session exists the
store is not touched and the scheduler is re-armed with scheduleWarnings
against the existing session start time; otherwise a new session is
appended, the monthly counter incremented, the store saved and the
scheduler armed with the resolved timer configuration. -/
def start (env : Env) (mode : String) (customDuration : Option Int)
    (customTags : List String) (file : Option StoreDoc) : StartResult :=
  let data := startData env file
  match (data.sessions.filter (fun s => s.endTime.isNone)).head? with
  | some activeSession =>
      { file := file, armed := scheduleWarnings env.now activeSession.startTime }
  | none =>
      let timerConfig0 := getTimerMode env mode
      let timerConfig :=
        if jsNumTruthy customDuration && (mode == "custom") then
          { timerConfig0 with duration := customDuration.getD 0 * 60 * 1000 }
        else timerConfig0
      let workingDirectory := env.cwd
      let project :=
        if env.projectAutoDetect then env.detectProject workingDirectory
        else fallbackProject workingDirectory
      let validatedTags := validateTags customTags
      let session : Session :=
        { id := some env.uuid
          startTime := env.now
          endTime := none
          duration := none
          mode := some mode
          workingDirectory := some workingDirectory
          project := some { project with tags := some validatedTags }
          tags := some validatedTags
          warnings := some { min30 := false, min10 := false }
          tokens := some { input := 0, output := 0, cacheCreate := 0, cacheRead := 0 }
          environment := some "WSL"
          claudeSessionId := none
          claudeCodeVersion := some (jsOrStr env.claudeStatus.version "Unknown")
          timerConfig := some timerConfig }
      let data' := { data with
        monthlySessionCount := some (jsOrNum data.monthlySessionCount 0 + 1)
        sessions := data.sessions ++ [session] }
      { file := some (saveData env data')
        armed := scheduleWarningsForMode env.now session.startTime timerConfig }

/-- Close the first session with a null endTime: set its endTime and
duration, leave everything else in place. Returns the updated list and the
duration added to the daily accumulator (none when no session was active,
in which case the list is returned unchanged). -/
def closeFirstActive (now : Int) : List Session → List Session × Option Int
  | [] => ([], none)
  | s :: rest =>
      if s.endTime.isNone then
        ({ s with endTime := some now, duration := some (now - s.startTime) } :: rest,
         some (now - s.startTime))
      else
        let r := closeFirstActive now rest
        (s :: r.1, r.2)

/-- end(): load the store; with no active session report and leave the file
unchanged; otherwise close the first active session, add its duration to
totalUsage and save. (The JS function is named end, a Lean keyword.) -/
def endSession (env : Env) (file : Option StoreDoc) : Option StoreDoc :=
  let data := loadData env file
  let r := closeFirstActive env.now data.sessions
  match r.2 with
  | none => file
  | some duration =>
      some (saveData env
        { data with
            sessions := r.1
            totalUsage := jsAddNum data.totalUsage duration })

/-- A manual CLI invocation: start with its arguments or end. Each carries
the ambient environment at the time of the call. -/
inductive Op where
  | startOp (env : Env) (mode : String) (customDuration : Option Int)
      (customTags : List String)
  | endOp (env : Env)

/-- The store-file effect of one manual invocation. -/
def step (file : Option StoreDoc) : Op → Option StoreDoc
  | .startOp env mode customDuration customTags =>
      (start env mode customDuration customTags file).file
  | .endOp env => endSession env file

/-- Whether a session is active (endTime still null). -/
def isActive (s : Session) : Bool := s.endTime.isNone

/-- Number of active sessions in a session list. -/
def countActive (l : List Session) : Nat :=
  (l.filter (fun s => s.endTime.isNone)).length

/-- Number of active sessions recorded in the store file. -/
def countActiveFile : Option StoreDoc → Nat
  | none => 0
  | some d => countActive d.sessions

/-- Index of the first active session, in insertion order. -/
def firstActiveIdx : List Session → Option Nat
  | [] => none
  | s :: rest =>
      if s.endTime.isNone then some 0 else (firstActiveIdx rest).map (· + 1)

/-! ### config.js: the timer-mode registry -/

/-- The caller-supplied argument of Config.setTimerMode; any field may be
absent. -/
structure TimerModeInput where
  name : Option String
  duration : Option Int
  warnings : Option (List Int)
  autoEnd : Option Bool
  description : Option String
  deriving DecidableEq, Repr

/-- The in-memory configuration, restricted to the fields the claims
touch. -/
structure Config where
  maxHours : Int
  timerModes : List (String × TimerConfig)
  deriving DecidableEq, Repr

/-- JS object property assignment on the timerModes table: replace the
entry for the key if present (keys are unique in a JS object), otherwise
append a new entry. -/
def setAssoc : List (String × TimerConfig) → String → TimerConfig →
    List (String × TimerConfig)
  | [], k, v => [(k, v)]
  | (a, b) :: rest, k, v =>
      if a = k then (k, v) :: rest else (a, b) :: setAssoc rest k v

/-- The timer-config literal Config.setTimerMode builds: each falsy field is
replaced by its default (an array is always truthy, even empty; false stays
false). -/
def normalizeTimerMode (mode : String) (c : TimerModeInput) : TimerConfig :=
  { name := jsOrStr c.name mode
    duration := jsOrNum c.duration (60 * 60 * 1000)
    warnings := c.warnings.getD [10 * 60 * 1000]
    autoEnd := c.autoEnd.getD false
    breakDuration := none
    description := jsOrStr c.description "Custom timer mode" }

/-- Config.setTimerMode: build the normalized literal, store it under
timerModes.mode and save the configuration file. The boolean is the return
value of this.set, i.e. whether the file write succeeded (fsOk); no
validation is performed on the way. -/
def setTimerMode (fsOk : Bool) (cfg : Config) (mode : String)
    (c : TimerModeInput) : Config × Bool :=
  ({ cfg with timerModes := setAssoc cfg.timerModes mode (normalizeTimerMode mode c) },
   fsOk)

/-- Config.validate: collect warning strings; in this typed model
sessions.maxHours is always a number and warnings always an array, so only
the range checks remain (a zero duration is JS-falsy and is flagged). The
result is only ever logged by Config.import, never used to reject. -/
def validate (cfg : Config) : List String :=
  (if cfg.maxHours ≤ 0 ∨ cfg.maxHours > 24 then
    ["sessions.maxHours must be a number between 1 and 24"] else []) ++
  (cfg.timerModes.filter (fun p => p.2.duration == 0)).map
    (fun p => "timerModes." ++ p.1 ++ ".duration must be a positive number")

/-! ### auto-detector.js: JSONL monitoring -/

/-- Token usage counters of one JSONL entry; every field may be absent. -/
structure Usage where
  input_tokens : Option Int
  output_tokens : Option Int
  cache_creation_input_tokens : Option Int
  cache_read_input_tokens : Option Int
  deriving DecidableEq, Repr

/-- One parsed JSONL line (the fields processJSONLEntry destructures; type
and message are never read and are omitted). -/
structure JEntry where
  sessionId : Option String
  timestamp : Option Int
  cwd : Option String
  usage : Option Usage
  deriving DecidableEq, Repr

/-- The per-session accumulator the auto-detector keeps in its
activeSessions map. -/
structure SessionData where
  sessionId : String
  filePath : String
  startTime : Int
  lastActivity : Int
  cwd : String
  messageCount : Int
  tokens : Tokens
  deriving DecidableEq, Repr

/-- The lifecycle events the auto-detector emits. -/
inductive DetEvent where
  | started (sd : SessionData)
  | updated (sd : SessionData)
  | ended (sd : SessionData)
  deriving DecidableEq, Repr

/-- JS Map.set: an existing key keeps its position and gets the new value,
a new key is appended. -/
def mapSet (m : List (String × SessionData)) (k : String) (v : SessionData) :
    List (String × SessionData) :=
  if (m.lookup k).isSome then
    m.map (fun p => if p.1 = k then (k, v) else p)
  else m ++ [(k, v)]

/-- checkSessionTimeouts: sessions idle for six hours are dropped from the
map with a session_ended event each. -/
def checkSessionTimeouts (now : Int) (m : List (String × SessionData)) :
    List (String × SessionData) × List DetEvent :=
  let sixHoursAgo := now - 6 * 60 * 60 * 1000
  (m.filter (fun p => ¬ (p.2.lastActivity < sixHoursAgo)),
   (m.filter (fun p => p.2.lastActivity < sixHoursAgo)).map (fun p => .ended p.2))

/-- processJSONLEntry: ignore entries without a session id or timestamp;
otherwise fetch or create the accumulator for the id, bump its activity
stamp and message count, add the token usage of the entry, store it back,
emit session_started on first sight or session_updated otherwise, then run
the timeout sweep. -/
def processJSONLEntry (now : Int) (entry : JEntry) (filePath : String)
    (activeSessions : List (String × SessionData)) :
    List (String × SessionData) × List DetEvent :=
  match entry.sessionId, entry.timestamp with
  | some sessionId, some timestamp =>
      if sessionId = "" then (activeSessions, [])
      else
        let base := (activeSessions.lookup sessionId).getD
          { sessionId := sessionId
            filePath := filePath
            startTime := timestamp
            lastActivity := timestamp
            cwd := jsOrStr entry.cwd "Unknown"
            messageCount := 0
            tokens := { input := 0, output := 0, cacheCreate := 0, cacheRead := 0 } }
        let sd0 := { base with lastActivity := timestamp,
                               messageCount := base.messageCount + 1 }
        let sd :=
          match entry.usage with
          | none => sd0
          | some usage =>
              { sd0 with tokens :=
                { input := sd0.tokens.input + usage.input_tokens.getD 0
                  output := sd0.tokens.output + usage.output_tokens.getD 0
                  cacheCreate :=
                    sd0.tokens.cacheCreate + usage.cache_creation_input_tokens.getD 0
                  cacheRead :=
                    sd0.tokens.cacheRead + usage.cache_read_input_tokens.getD 0 } }
        let wasNew := (activeSessions.lookup sessionId).isNone
        let m := mapSet activeSessions sessionId sd
        let ev : DetEvent := if wasNew then .started sd else .updated sd
        let swept := checkSessionTimeouts now m
        (swept.1, ev :: swept.2)
  | _, _ => (activeSessions, [])

/-- Update the tokens of the first still-active store session carrying the
given external session id; none when no such session exists. -/
def updateFirstMatching (sessions : List Session) (sessionId : String)
    (tokens : Tokens) : Option (List Session) :=
  match sessions with
  | [] => none
  | s :: rest =>
      if s.endTime.isNone ∧ s.claudeSessionId = some sessionId then
        some ({ s with tokens := some tokens } :: rest)
      else
        (updateFirstMatching rest sessionId tokens).map (s :: ·)

/-- The session_updated handler of startAutoDetection: find the active local
session with the matching claudeSessionId, overwrite its tokens with the
accumulated detector tokens and save; otherwise leave the file alone. -/
def sessionUpdatedHandler (env : Env) (sessionData : SessionData)
    (file : Option StoreDoc) : Option StoreDoc :=
  let data := loadData env file
  match updateFirstMatching data.sessions sessionData.sessionId sessionData.tokens with
  | none => file
  | some sessions => some (saveData env { data with sessions := sessions })

/-! ### Concrete fixtures for counterexamples and witnesses -/

/-- A sample detected project. -/
def projA : Project :=
  { name := "proj", path := "/w", ptype := "node", git := none, tags := none }

/-- A sample CLI probe result. -/
def statusA : ClaudeStatus :=
  { authenticated := true, version := some "1.0.40", error := none }

/-- A sample environment at time 1000. -/
def envA : Env :=
  { now := 1000
    cwd := "/w"
    uuid := "uuid-new"
    uuids := fun _ => "uuid-mig"
    claudeStatus := statusA
    detectProject := fun _ => projA
    projectAutoDetect := true
    sessionsAutoDetect := true
    timerModes := defaultTimerModes }

/-- The same environment observed at the later time 2000. -/
def envB : Env := { envA with now := 2000 }

/-- Zeroed token counters. -/
def zeroTokens : Tokens := { input := 0, output := 0, cacheCreate := 0, cacheRead := 0 }

/-- A blank session record; fixtures override the relevant fields. -/
def sessionBase : Session :=
  { id := some "s0"
    startTime := 0
    endTime := none
    duration := none
    mode := none
    workingDirectory := none
    project := none
    tags := none
    warnings := none
    tokens := none
    environment := none
    claudeSessionId := none
    claudeCodeVersion := none
    timerConfig := none }

/-- An empty legacy document with no version field and no stamps. -/
def docLegacyEmpty : StoreDoc :=
  { version := none
    sessions := []
    totalUsage := none
    lastReset := none
    monthlySessionCount := none
    lastMonthReset := none
    autoDetection := none
    lastUpdate := none
    claudeCodeStatus := none }

/-- A legacy session record with no tokens object. -/
def sLegacy : Session :=
  { sessionBase with id := some "old-1", startTime := 50, endTime := none }

/-- A legacy document whose single session is missing its tokens object. -/
def docLegacyNoTokens : StoreDoc :=
  { docLegacyEmpty with sessions := [sLegacy] }

/-- A session that already carries a project and a tokens object but no
mode field. -/
def sV1 : Session :=
  { sessionBase with
      id := some "old-2"
      startTime := 50
      project := some projA
      tokens := some zeroTokens
      mode := none }

/-- A v1 document whose single session already carries a project and a
tokens object but no mode field. -/
def docV1WithProject : StoreDoc :=
  { docLegacyEmpty with version := some "1.0.0", sessions := [sV1] }

/-- A current document with no active session, a 100 ms daily accumulator
and a daily-reset stamp at the epoch (over a day old at time 90000000). -/
def docStale : StoreDoc :=
  { docLegacyEmpty with
      version := some "2.0.0"
      totalUsage := some 100
      lastReset := some 0
      monthlySessionCount := some 2
      lastMonthReset := some 0 }

/-- The environment a day later, at time 90000000 (25 hours). -/
def envLate : Env := { envA with now := 90000000 }

/-- An active session started at time 0 in pomodoro mode, capturing the
pomodoro timer configuration. -/
def sPomodoro : Session :=
  { sessionBase with
      id := some "pomo-1"
      startTime := 0
      mode := some "pomodoro"
      project := some projA
      tags := some []
      warnings := some { min30 := false, min10 := false }
      tokens := some zeroTokens
      environment := some "WSL"
      timerConfig := some pomodoroDefault }

/-- A current document whose single active session was started at time 0 in
pomodoro mode. -/
def docPomodoro : StoreDoc :=
  { docLegacyEmpty with
      version := some "2.0.0"
      sessions := [sPomodoro]
      totalUsage := some 0
      lastReset := some 0
      monthlySessionCount := some 1
      lastMonthReset := some 0 }

/-- The environment ten minutes in, at time 600000. -/
def envMid : Env := { envA with now := 600000 }

/-- The first (earliest-created) of two concurrently active sessions. -/
def sActive1 : Session :=
  { sessionBase with
      id := some "a1", startTime := 10, project := some projA, tokens := some zeroTokens }

/-- The second of two concurrently active sessions. -/
def sActive2 : Session :=
  { sessionBase with
      id := some "a2"
      startTime := 20
      project := some projA
      tokens := some zeroTokens
      claudeSessionId := some "ext-2" }

/-- A session that has already ended. -/
def sClosed3 : Session :=
  { sessionBase with
      id := some "c3"
      startTime := 0
      endTime := some 5
      duration := some 5
      project := some projA
      tokens := some zeroTokens }

/-- A current document with two active sessions (as the auto-detection path
can produce) followed by one closed session. -/
def docTwoActive : StoreDoc :=
  { docLegacyEmpty with
      version := some "2.0.0"
      sessions := [sActive1, sActive2, sClosed3]
      totalUsage := some 7
      lastReset := some 0
      monthlySessionCount := some 3
      lastMonthReset := some 0 }

/-- A JSONL entry with token usage, as the activity log yields it. -/
def entryDup : JEntry :=
  { sessionId := some "ext-9"
    timestamp := some 1000
    cwd := some "/w"
    usage := some { input_tokens := some 5
                    output_tokens := some 7
                    cache_creation_input_tokens := none
                    cache_read_input_tokens := none } }

/-- Detector state after the first delivery of entryDup to an empty map. -/
def detOnce : List (String × SessionData) :=
  (processJSONLEntry 1000 entryDup "log.jsonl" []).1

/-- Detector state after the duplicate (second) delivery of entryDup. -/
def detTwice : List (String × SessionData) :=
  (processJSONLEntry 1000 entryDup "log.jsonl" detOnce).1

/-- A current document whose single active session is correlated to the
external session ext-9. -/
def docExt : StoreDoc :=
  { docLegacyEmpty with
      version := some "2.0.0"
      sessions := [{ sessionBase with
                       id := some "loc-9"
                       startTime := 0
                       project := some projA
                       tokens := some zeroTokens
                       claudeSessionId := some "ext-9" }]
      totalUsage := some 0
      lastReset := some 0
      monthlySessionCount := some 1
      lastMonthReset := some 0 }

/-- The accumulator the detector holds for ext-9 after the duplicate
delivery: message count 2 and every token counter doubled. -/
def sdTwice : SessionData :=
  { sessionId := "ext-9"
    filePath := "log.jsonl"
    startTime := 1000
    lastActivity := 1000
    cwd := "/w"
    messageCount := 2
    tokens := { input := 10, output := 14, cacheCreate := 0, cacheRead := 0 } }

/-- The default configuration as loaded by config.js. -/
def cfgW : Config := { maxHours := 5, timerModes := defaultTimerModes }

/-- A timer-mode registration argument that is invalid in the sense of the
specification: a negative duration and a warning offset not below the
duration. -/
def badModeInput : TimerModeInput :=
  { name := some "Bad"
    duration := some (-5)
    warnings := some [999999999]
    autoEnd := none
    description := none }

/-! ### Helper lemmas -/

theorem migrate_version (env : Env) (d : StoreDoc) :
    (migrateDataStructure env d).version = some "2.0.0" := by
  unfold migrateDataStructure
  split
  · assumption
  · rfl

theorem migrate_of_current (env : Env) (d : StoreDoc)
    (h : d.version = some "2.0.0") : migrateDataStructure env d = d := by
  unfold migrateDataStructure
  rw [if_pos h]

theorem migrateSession_endTime (env : Env) (i : Nat) (s : Session) :
    (migrateSession env i s).endTime = s.endTime := by
  unfold migrateSession
  split <;> rfl

theorem migrateSessions_get? (env : Env) :
    ∀ (l : List Session) (k i : Nat),
      (migrateSessions env k l).get? i = (l.get? i).map (migrateSession env (k + i)) := by
  intro l
  induction l with
  | nil => intro k i; simp [migrateSessions]
  | cons s rest ih =>
      intro k i
      cases i with
      | zero => simp [migrateSessions]
      | succ n =>
          have hk : k + 1 + n = k + (n + 1) := by omega
          simp only [migrateSessions, List.get?_cons_succ, ih (k + 1) n, hk]

theorem migrateSessions_length (env : Env) :
    ∀ (k : Nat) (l : List Session), (migrateSessions env k l).length = l.length := by
  intro k l
  induction l generalizing k with
  | nil => rfl
  | cons s rest ih => simp [migrateSessions, ih]

theorem countActive_cons (s : Session) (l : List Session) :
    countActive (s :: l) = (if isActive s then 1 else 0) + countActive l := by
  simp only [countActive, List.filter_cons, isActive]
  split <;> simp [Nat.add_comm]

theorem migrateSession_isActive (env : Env) (i : Nat) (s : Session) :
    isActive (migrateSession env i s) = isActive s := by
  simp [isActive, migrateSession_endTime]

theorem migrateSessions_countActive (env : Env) :
    ∀ (k : Nat) (l : List Session), countActive (migrateSessions env k l) = countActive l := by
  intro k l
  induction l generalizing k with
  | nil => rfl
  | cons s rest ih =>
      simp [migrateSessions, countActive_cons, migrateSession_isActive, ih]

theorem migrate_countActive (env : Env) (d : StoreDoc) :
    countActive (migrateDataStructure env d).sessions = countActive d.sessions := by
  unfold migrateDataStructure
  split
  · rfl
  · exact migrateSessions_countActive env 0 d.sessions

theorem loadData_countActive (env : Env) (file : Option StoreDoc) :
    countActive (loadData env file).sessions = countActiveFile file := by
  cases file with
  | none => rfl
  | some d => exact migrate_countActive env d

theorem monthlyRollover_sessions (now : Int) (d : StoreDoc) :
    (monthlyRollover now d).sessions = d.sessions := by
  unfold monthlyRollover
  cases d.lastMonthReset with
  | none => rfl
  | some t => dsimp only; split <;> rfl

theorem dailyRollover_sessions (now : Int) (d : StoreDoc) :
    (dailyRollover now d).sessions = d.sessions := by
  unfold dailyRollover
  cases d.lastReset with
  | none => rfl
  | some t => dsimp only; split <;> rfl

theorem startData_sessions (env : Env) (file : Option StoreDoc) :
    (startData env file).sessions = (loadData env file).sessions := by
  unfold startData
  rw [dailyRollover_sessions, monthlyRollover_sessions]

theorem startData_countActive (env : Env) (file : Option StoreDoc) :
    countActive (startData env file).sessions = countActiveFile file := by
  rw [startData_sessions, loadData_countActive]

theorem saveData_sessions (env : Env) (d : StoreDoc) :
    (saveData env d).sessions = d.sessions := rfl

theorem countActive_append (l₁ l₂ : List Session) :
    countActive (l₁ ++ l₂) = countActive l₁ + countActive l₂ := by
  simp [countActive, List.filter_append]

theorem cfa_step_none (now : Int) (s : Session) (rest : List Session)
    (he : s.endTime = none) :
    closeFirstActive now (s :: rest) =
      ({ s with endTime := some now, duration := some (now - s.startTime) } :: rest,
       some (now - s.startTime)) := by
  simp [closeFirstActive, he]

theorem cfa_step_some (now : Int) (s : Session) (rest : List Session) (t : Int)
    (he : s.endTime = some t) :
    closeFirstActive now (s :: rest) =
      (s :: (closeFirstActive now rest).1, (closeFirstActive now rest).2) := by
  simp [closeFirstActive, he]

theorem fai_step_none (s : Session) (rest : List Session) (he : s.endTime = none) :
    firstActiveIdx (s :: rest) = some 0 := by
  simp [firstActiveIdx, he]

theorem fai_step_some (s : Session) (rest : List Session) (t : Int)
    (he : s.endTime = some t) :
    firstActiveIdx (s :: rest) = (firstActiveIdx rest).map (· + 1) := by
  simp [firstActiveIdx, he]

theorem closeFirstActive_countActive_le (now : Int) :
    ∀ l : List Session, countActive (closeFirstActive now l).1 ≤ countActive l := by
  intro l
  induction l with
  | nil => exact Nat.le_refl _
  | cons s rest ih =>
      cases he : s.endTime with
      | none =>
          have h2 : isActive
            { s with endTime := some now, duration := some (now - s.startTime) } = false := rfl
          have h1 : isActive s = true := by simp [isActive, he]
          rw [cfa_step_none now s rest he]
          rw [countActive_cons, countActive_cons, h1, h2]
          simp
      | some t =>
          have h1 : isActive s = false := by simp [isActive, he]
          rw [cfa_step_some now s rest t he]
          rw [countActive_cons, countActive_cons, h1]
          simpa using ih

theorem closeFirstActive_length (now : Int) :
    ∀ l : List Session, (closeFirstActive now l).1.length = l.length := by
  intro l
  induction l with
  | nil => rfl
  | cons s rest ih =>
      cases he : s.endTime with
      | none => rw [cfa_step_none now s rest he]; simp
      | some t => rw [cfa_step_some now s rest t he]; simp [ih]

theorem closeFirstActive_closed (now : Int) :
    ∀ (l : List Session) (i : Nat) (s : Session),
      firstActiveIdx l = some i → l.get? i = some s →
      (closeFirstActive now l).1.get? i =
          some { s with endTime := some now, duration := some (now - s.startTime) } ∧
        (closeFirstActive now l).2 = some (now - s.startTime) := by
  intro l
  induction l with
  | nil => intro i s hfa _; simp [firstActiveIdx] at hfa
  | cons a rest ih =>
      intro i s hfa hget
      cases he : a.endTime with
      | none =>
          rw [fai_step_none a rest he] at hfa
          have hi : i = 0 := by simpa using hfa.symm
          subst hi
          simp only [List.get?_cons_zero, Option.some.injEq] at hget
          subst hget
          rw [cfa_step_none now a rest he]
          simp
      | some t =>
          rw [fai_step_some a rest t he] at hfa
          rcases hfr : firstActiveIdx rest with _ | i'
          · rw [hfr] at hfa; simp at hfa
          · rw [hfr] at hfa
            simp only [Option.map_some', Option.some.injEq] at hfa
            subst hfa
            simp only [List.get?_cons_succ] at hget
            have := ih i' s hfr hget
            rw [cfa_step_some now a rest t he]
            simpa using this

theorem closeFirstActive_other (now : Int) :
    ∀ (l : List Session) (i : Nat), firstActiveIdx l = some i →
      ∀ j, j ≠ i → (closeFirstActive now l).1.get? j = l.get? j := by
  intro l
  induction l with
  | nil => intro i hfa; simp [firstActiveIdx] at hfa
  | cons a rest ih =>
      intro i hfa j hj
      cases he : a.endTime with
      | none =>
          rw [fai_step_none a rest he] at hfa
          have hi : i = 0 := by simpa using hfa.symm
          subst hi
          cases j with
          | zero => exact absurd rfl hj
          | succ n => rw [cfa_step_none now a rest he]; simp
      | some t =>
          rw [fai_step_some a rest t he] at hfa
          rcases hfr : firstActiveIdx rest with _ | i'
          · rw [hfr] at hfa; simp at hfa
          · rw [hfr] at hfa
            simp only [Option.map_some', Option.some.injEq] at hfa
            subst hfa
            cases j with
            | zero => rw [cfa_step_some now a rest t he]; simp
            | succ n =>
                have hn : n ≠ i' := by omega
                rw [cfa_step_some now a rest t he]
                simpa using ih i' hfr n hn

theorem closeFirstActive_countActive (now : Int) :
    ∀ (l : List Session) (i : Nat), firstActiveIdx l = some i →
      countActive (closeFirstActive now l).1 + 1 = countActive l := by
  intro l
  induction l with
  | nil => intro i hfa; simp [firstActiveIdx] at hfa
  | cons a rest ih =>
      intro i hfa
      cases he : a.endTime with
      | none =>
          have h2 : isActive
            { a with endTime := some now, duration := some (now - a.startTime) } = false := rfl
          have h1 : isActive a = true := by simp [isActive, he]
          rw [cfa_step_none now a rest he]
          rw [countActive_cons, countActive_cons, h1, h2]
          simp [Nat.add_comm]
      | some t =>
          rw [fai_step_some a rest t he] at hfa
          rcases hfr : firstActiveIdx rest with _ | i'
          · rw [hfr] at hfa; simp at hfa
          · have h1 : isActive a = false := by simp [isActive, he]
            rw [cfa_step_some now a rest t he]
            rw [countActive_cons, countActive_cons, h1]
            simpa using ih i' hfr

theorem start_file_active (env : Env) (mode : String) (cd : Option Int)
    (tags : List String) (file : Option StoreDoc) (s : Session)
    (hh : ((startData env file).sessions.filter (fun x => x.endTime.isNone)).head? = some s) :
    start env mode cd tags file =
      { file := file, armed := scheduleWarnings env.now s.startTime } := by
  simp only [start, hh]

theorem start_count_new (env : Env) (mode : String) (cd : Option Int)
    (tags : List String) (file : Option StoreDoc)
    (hh : ((startData env file).sessions.filter (fun x => x.endTime.isNone)).head? = none) :
    countActiveFile (start env mode cd tags file).file =
      countActive (startData env file).sessions + 1 := by
  simp only [start, hh]
  simp only [countActiveFile, saveData]
  simp [countActive_append]
  rfl

theorem start_countActive (env : Env) (mode : String) (cd : Option Int)
    (tags : List String) (file : Option StoreDoc) (h : countActiveFile file ≤ 1) :
    countActiveFile (start env mode cd tags file).file ≤ 1 := by
  rcases hh : ((startData env file).sessions.filter (fun x => x.endTime.isNone)).head? with _ | s
  · have hempty : (startData env file).sessions.filter (fun x => x.endTime.isNone) = [] :=
      List.head?_eq_none_iff.mp hh
    have hz : countActive (startData env file).sessions = 0 := by
      simp only [countActive]
      rw [hempty]
      rfl
    rw [start_count_new env mode cd tags file hh, hz]
  · rw [start_file_active env mode cd tags file s hh]
    exact h

theorem endSession_countActive (env : Env) (file : Option StoreDoc) :
    countActiveFile (endSession env file) ≤ countActiveFile file := by
  unfold endSession
  rcases hr : (closeFirstActive env.now (loadData env file).sessions).2 with _ | d
  · simp only [hr]
    exact Nat.le_refl _
  · simp only [hr]
    simp only [countActiveFile, saveData]
    calc countActive (closeFirstActive env.now (loadData env file).sessions).1
        ≤ countActive (loadData env file).sessions :=
          closeFirstActive_countActive_le env.now _
      _ = countActiveFile file := loadData_countActive env file

theorem monthly_step_none (now : Int) (d : StoreDoc) (h : d.lastMonthReset = none) :
    monthlyRollover now d = d := by
  simp only [monthlyRollover, h]

theorem monthly_step_due (now t : Int) (d : StoreDoc) (h : d.lastMonthReset = some t)
    (hd : daysSinceAtLeast now t 30) :
    monthlyRollover now d =
      { d with monthlySessionCount := some 0, lastMonthReset := some now } := by
  simp only [monthlyRollover, h]
  rw [if_pos hd]

theorem monthly_step_notdue (now t : Int) (d : StoreDoc) (h : d.lastMonthReset = some t)
    (hd : ¬ daysSinceAtLeast now t 30) :
    monthlyRollover now d = d := by
  simp only [monthlyRollover, h]
  rw [if_neg hd]

theorem daily_step_none (now : Int) (d : StoreDoc) (h : d.lastReset = none) :
    dailyRollover now d = d := by
  simp only [dailyRollover, h]

theorem daily_step_due (now t : Int) (d : StoreDoc) (h : d.lastReset = some t)
    (hd : daysSinceAtLeast now t 1) :
    dailyRollover now d = { d with totalUsage := some 0, lastReset := some now } := by
  simp only [dailyRollover, h]
  rw [if_pos hd]

theorem daily_step_notdue (now t : Int) (d : StoreDoc) (h : d.lastReset = some t)
    (hd : ¬ daysSinceAtLeast now t 1) :
    dailyRollover now d = d := by
  simp only [dailyRollover, h]
  rw [if_neg hd]

theorem not_due_same (now : Int) (days : Int) (hdays : 1 ≤ days) :
    ¬ daysSinceAtLeast now now days := by
  unfold daysSinceAtLeast msPerDay
  intro hc
  omega

theorem monthlyRollover_idem (now : Int) (d : StoreDoc) :
    monthlyRollover now (monthlyRollover now d) = monthlyRollover now d := by
  cases h : d.lastMonthReset with
  | none => rw [monthly_step_none now d h, monthly_step_none now d h]
  | some t =>
      by_cases hd : daysSinceAtLeast now t 30
      · rw [monthly_step_due now t d h hd]
        exact monthly_step_notdue now now _ rfl (by
          intro hc
          exact not_due_same now 30 (by norm_num) hc)
      · rw [monthly_step_notdue now t d h hd, monthly_step_notdue now t d h hd]

theorem dailyRollover_idem (now : Int) (d : StoreDoc) :
    dailyRollover now (dailyRollover now d) = dailyRollover now d := by
  cases h : d.lastReset with
  | none => rw [daily_step_none now d h, daily_step_none now d h]
  | some t =>
      by_cases hd : daysSinceAtLeast now t 1
      · rw [daily_step_due now t d h hd]
        exact daily_step_notdue now now _ rfl (by
          intro hc
          exact not_due_same now 1 (by norm_num) hc)
      · rw [daily_step_notdue now t d h hd, daily_step_notdue now t d h hd]

theorem lookup_setAssoc_self (k : String) (v : TimerConfig) :
    ∀ l : List (String × TimerConfig), (setAssoc l k v).lookup k = some v := by
  intro l
  induction l with
  | nil => simp [setAssoc, List.lookup]
  | cons p rest ih =>
      obtain ⟨a, b⟩ := p
      by_cases h : a = k
      · subst h
        simp [setAssoc, List.lookup]
      · have hba : (k == a) = false := beq_eq_false_iff_ne.mpr (fun hc => h hc.symm)
        simp only [setAssoc, if_neg h, List.lookup, hba]
        exact ih

theorem lookup_setAssoc_ne (k k' : String) (v : TimerConfig) (hk : k' ≠ k) :
    ∀ l : List (String × TimerConfig), (setAssoc l k v).lookup k' = l.lookup k' := by
  intro l
  induction l with
  | nil =>
      have hba : (k' == k) = false := beq_eq_false_iff_ne.mpr hk
      simp [setAssoc, List.lookup, hba]
  | cons p rest ih =>
      obtain ⟨a, b⟩ := p
      by_cases h : a = k
      · subst h
        have hba : (k' == a) = false := beq_eq_false_iff_ne.mpr hk
        simp [setAssoc, List.lookup, hba]
      · simp only [setAssoc, if_neg h]
        by_cases h2 : a = k'
        · subst h2
          simp [List.lookup]
        · have hba : (k' == a) = false := beq_eq_false_iff_ne.mpr (fun hc => h2 hc.symm)
          simp only [List.lookup, hba]
          exact ih

theorem scheduleWarningsForMode_claudeMax (now s0 : Int) :
    scheduleWarningsForMode now s0 claudeMaxDefault = scheduleWarnings now s0 := by
  simp only [scheduleWarningsForMode, scheduleWarnings, claudeMaxDefault, MAX_SESSION_MS,
    WARNING_30_MIN, WARNING_10_MIN, List.filter_cons, List.filter_nil, decide_eq_true_eq]
  norm_num
  split_ifs <;> simp_all <;> omega

theorem length_filter_lt_of_not (p : Int → Bool) :
    ∀ (l : List Int) (a : Int), a ∈ l → p a = false →
      (l.filter p).length < l.length := by
  intro l
  induction l with
  | nil => intro a ha; cases ha
  | cons x rest ih =>
      intro a ha hpa
      rcases List.mem_cons.mp ha with rfl | hmem
      · rw [List.filter_cons, hpa]
        have := List.length_filter_le p rest
        simp
        omega
      · rw [List.filter_cons]
        cases hx : p x
        · have := ih a hmem hpa
          simp
          omega
        · have := ih a hmem hpa
          simp
          omega

/-- A valid timer mode in the sense of the specification. -/
def validTimerConfig (tc : TimerConfig) : Prop :=
  0 < tc.duration ∧ ∀ w ∈ tc.warnings, 0 ≤ w ∧ w < tc.duration

theorem scheduleWarningsForMode_eq (now s0 : Int) (tc : TimerConfig) :
    scheduleWarningsForMode now s0 tc =
      ((tc.warnings.filter (fun w => decide (0 < s0 + tc.duration - w - now))).map
        (fun w => s0 + tc.duration - w)) ++
      (if 0 < s0 + tc.duration - now then [s0 + tc.duration] else []) := by
  simp only [scheduleWarningsForMode]
  rw [ite_self]



instance (tc : TimerConfig) : Decidable (validTimerConfig tc) :=
  inferInstanceAs (Decidable (_ ∧ _))

theorem migrateSession_defaults (env : Env) (i : Nat) (s : Session)
    (hmiss : ¬ (s.project.isSome ∧ s.tokens.isSome)) :
    (migrateSession env i s).tokens = some zeroTokens ∧
    (migrateSession env i s).tags = some [] ∧
    (migrateSession env i s).warnings = some { min30 := false, min10 := false } ∧
    (migrateSession env i s).mode = some "claude-max" := by
  have hb : (s.project.isSome && s.tokens.isSome) = false := by
    cases hp : s.project.isSome <;> cases ht : s.tokens.isSome <;> simp_all
  simp only [migrateSession, hb, Bool.false_eq_true, if_false]
  simp [zeroTokens]

theorem migrate_sessions_length (env : Env) (d : StoreDoc) :
    (migrateDataStructure env d).sessions.length = d.sessions.length := by
  unfold migrateDataStructure
  split
  · rfl
  · exact migrateSessions_length env 0 d.sessions

theorem migrate_sessions_eq_notcur (env : Env) (d : StoreDoc)
    (hv : d.version ≠ some "2.0.0") :
    (migrateDataStructure env d).sessions = migrateSessions env 0 d.sessions := by
  unfold migrateDataStructure
  rw [if_neg hv]

theorem migrate_endTime (env : Env) (d : StoreDoc) (j : Nat) :
    ((migrateDataStructure env d).sessions.get? j).map Session.endTime =
      (d.sessions.get? j).map Session.endTime := by
  unfold migrateDataStructure
  split
  · rfl
  · rw [migrateSessions_get?]
    cases d.sessions.get? j with
    | none => rfl
    | some s => simp [migrateSession_endTime]

/-! ### Claim theorems -/

/-- C1: after any finite sequence of manual start() and end() invocations on
a store with at most one active session, the store still has at most one
session with a null endTime: start() appends no session when an active one
exists and end() only closes a session. -/
theorem C1_single_active_invariant (ops : List Op) (file : Option StoreDoc)
    (h : countActiveFile file ≤ 1) :
    countActiveFile (ops.foldl step file) ≤ 1 := by
  induction ops generalizing file with
  | nil => exact h
  | cons op rest ih =>
      simp only [List.foldl_cons]
      cases op with
      | startOp env mode cd tags => exact ih _ (start_countActive env mode cd tags file h)
      | endOp env => exact ih _ (le_trans (endSession_countActive env file) h)

/-- Operations for the C1 witness: start, end, then a second start. -/
def opsW : List Op :=
  [Op.startOp envA "pomodoro" none [], Op.endOp envB,
   Op.startOp envB "claude-max" none ["x"]]

/-- C1 witness: the invariant theorem applied to a concrete run from a
missing store file. -/
theorem C1_witness :
    countActiveFile (none : Option StoreDoc) ≤ 1 ∧
    countActiveFile (opsW.foldl step none) ≤ 1 :=
  ⟨by decide, C1_single_active_invariant opsW none (by decide)⟩

/-- C2 counterexample: migration is not a pure function of the input
document alone. The two environments agree except that the clock has moved
from 1000 to 2000, and migrating the same legacy document in them produces
different outputs (the minted lastReset stamp differs). -/
theorem C2_counterexample :
    envB = { envA with now := 2000 } ∧
    migrateDataStructure envA docLegacyEmpty ≠ migrateDataStructure envB docLegacyEmpty :=
  ⟨rfl, by decide⟩

/-- C2 (amended): migration is idempotent in every environment -
migrate(migrate(doc)) = migrate(doc) even across different ambient states -
and a document already at version 2.0.0 is returned unchanged. -/
theorem C2_migration_idempotent (env env' : Env) (d dcur : StoreDoc)
    (h : dcur.version = some "2.0.0") :
    migrateDataStructure env' (migrateDataStructure env d) = migrateDataStructure env d ∧
    migrateDataStructure env dcur = dcur :=
  ⟨migrate_of_current env' _ (migrate_version env d), migrate_of_current env dcur h⟩

/-- C2 witness: idempotence evaluated on the concrete legacy documents. -/
theorem C2_witness :
    (migrateDataStructure envA docLegacyNoTokens).version = some "2.0.0" ∧
    (migrateDataStructure envB (migrateDataStructure envA docLegacyEmpty) =
        migrateDataStructure envA docLegacyEmpty ∧
      migrateDataStructure envA (migrateDataStructure envA docLegacyNoTokens) =
        migrateDataStructure envA docLegacyNoTokens) :=
  ⟨by decide, C2_migration_idempotent envA envB docLegacyEmpty
      (migrateDataStructure envA docLegacyNoTokens) (by decide)⟩

/-- C3 counterexample: a prior-version document whose session already has a
project and a tokens object is passed through unchanged, so its missing
mode is NOT defaulted to the default timer-mode name as the claim states. -/
theorem C3_counterexample :
    docV1WithProject.version = some "1.0.0" ∧
    sV1.mode = none ∧
    ((migrateDataStructure envA docV1WithProject).sessions.get? 0).map Session.mode =
      some none :=
  ⟨rfl, rfl, by decide⟩

/-- C3 (amended): migration never drops a record, never changes (in
particular never invents) an endTime, always stamps version 2.0.0, and
fills the zeroed-token, empty-tag, default-warning and claude-max-mode
defaults exactly for the sessions of a prior-version document that lack a
project or a tokens object. -/
theorem C3_migration_shape (env : Env) (d dOld : StoreDoc) (j i : Nat) (s : Session)
    (hv : dOld.version ≠ some "2.0.0")
    (hs : dOld.sessions.get? i = some s)
    (hmiss : ¬ (s.project.isSome ∧ s.tokens.isSome)) :
    (migrateDataStructure env d).sessions.length = d.sessions.length ∧
    (migrateDataStructure env d).version = some "2.0.0" ∧
    ((migrateDataStructure env d).sessions.get? j).map Session.endTime =
      (d.sessions.get? j).map Session.endTime ∧
    ∃ s', (migrateDataStructure env dOld).sessions.get? i = some s' ∧
      s'.endTime = s.endTime ∧ s'.tokens = some zeroTokens ∧ s'.tags = some [] ∧
      s'.warnings = some { min30 := false, min10 := false } ∧
      s'.mode = some "claude-max" := by
  refine ⟨migrate_sessions_length env d, migrate_version env d, migrate_endTime env d j, ?_⟩
  refine ⟨migrateSession env (0 + i) s, ?_, ?_⟩
  · rw [migrate_sessions_eq_notcur env dOld hv, migrateSessions_get?, hs]
    rfl
  · have hd := migrateSession_defaults env (0 + i) s hmiss
    exact ⟨migrateSession_endTime env (0 + i) s, hd.1, hd.2.1, hd.2.2.1, hd.2.2.2⟩

/-- C3 witness: the shape theorem applied to the concrete legacy document
with a token-less session. -/
theorem C3_witness :
    (docLegacyNoTokens.version ≠ some "2.0.0" ∧
     docLegacyNoTokens.sessions.get? 0 = some sLegacy ∧
     ¬ (sLegacy.project.isSome ∧ sLegacy.tokens.isSome)) ∧
    ((migrateDataStructure envA docLegacyNoTokens).sessions.length =
        docLegacyNoTokens.sessions.length ∧
      (migrateDataStructure envA docLegacyNoTokens).version = some "2.0.0" ∧
      ((migrateDataStructure envA docLegacyNoTokens).sessions.get? 0).map Session.endTime =
        (docLegacyNoTokens.sessions.get? 0).map Session.endTime ∧
      ∃ s', (migrateDataStructure envA docLegacyNoTokens).sessions.get? 0 = some s' ∧
        s'.endTime = sLegacy.endTime ∧ s'.tokens = some zeroTokens ∧ s'.tags = some [] ∧
        s'.warnings = some { min30 := false, min10 := false } ∧
        s'.mode = some "claude-max") :=
  ⟨⟨by decide, by decide, by decide⟩,
   C3_migration_shape envA docLegacyNoTokens docLegacyNoTokens 0 0 sLegacy
     (by decide) (by decide) (by decide)⟩

/-- C4: for a valid timer mode, arming schedules exactly one callback per
warning offset plus the expiry callback when every fire time is strictly in
the future, strictly fewer when some fire time is already past, and never a
callback whose fire time is at or before now. -/
theorem C4_scheduler_count (tc : TimerConfig) (hv : validTimerConfig tc)
    (now1 start1 now2 start2 now3 start3 : Int)
    (hfut : ∀ t ∈ allFireTimes start1 tc, now1 < t)
    (hpast : ∃ t ∈ allFireTimes start2 tc, t ≤ now2) :
    (scheduleWarningsForMode now1 start1 tc).length = tc.warnings.length + 1 ∧
    (scheduleWarningsForMode now2 start2 tc).length < tc.warnings.length + 1 ∧
    (∀ t ∈ scheduleWarningsForMode now3 start3 tc, now3 < t) := by
  refine ⟨?_, ?_, ?_⟩
  · have hfilter : tc.warnings.filter
        (fun w => decide (0 < start1 + tc.duration - w - now1)) = tc.warnings := by
      apply List.filter_eq_self.mpr
      intro w hw
      have hmem : start1 + tc.duration - w ∈ allFireTimes start1 tc :=
        List.mem_append_left _ (List.mem_map.mpr ⟨w, hw, rfl⟩)
      have := hfut _ hmem
      simpa using (by omega : (0 : Int) < start1 + tc.duration - w - now1)
    have hexp : start1 + tc.duration ∈ allFireTimes start1 tc :=
      List.mem_append_right _ (by simp)
    have hexp2 := hfut _ hexp
    rw [scheduleWarningsForMode_eq, hfilter,
      if_pos (by omega : (0:Int) < start1 + tc.duration - now1)]
    simp
  · obtain ⟨t, ht, htle⟩ := hpast
    rw [scheduleWarningsForMode_eq]
    rcases List.mem_append.mp ht with hmap | hsing
    · obtain ⟨w, hw, rfl⟩ := List.mem_map.mp hmap
      have hdrop : decide (0 < start2 + tc.duration - w - now2) = false := by
        simp only [decide_eq_false_iff_not]
        omega
      have hlt := length_filter_lt_of_not
        (fun x => decide (0 < start2 + tc.duration - x - now2)) tc.warnings w hw hdrop
      have hend : (if 0 < start2 + tc.duration - now2
          then [start2 + tc.duration] else []).length ≤ 1 := by
        split <;> simp
      rw [List.length_append, List.length_map]
      omega
    · have ht2 : t = start2 + tc.duration := by simpa using hsing
      subst ht2
      rw [if_neg (by omega : ¬ (0:Int) < start2 + tc.duration - now2)]
      have := List.length_filter_le
        (fun w => decide (0 < start2 + tc.duration - w - now2)) tc.warnings
      rw [List.length_append, List.length_map]
      simp only [List.length_nil]
      omega
  · intro t ht
    rw [scheduleWarningsForMode_eq] at ht
    rcases List.mem_append.mp ht with hmap | hend
    · obtain ⟨w, hwf, rfl⟩ := List.mem_map.mp hmap
      have h1 := List.of_mem_filter hwf
      have h2 : (0:Int) < start3 + tc.duration - w - now3 := by simpa using h1
      omega
    · by_cases hc : (0:Int) < start3 + tc.duration - now3
      · rw [if_pos hc] at hend
        have h3 : t = start3 + tc.duration := by simpa using hend
        omega
      · rw [if_neg hc] at hend
        cases hend

/-- C4 witness: the counting theorem evaluated on the pomodoro mode, with
all fire times future at time 0 and the 20-minute warning already past at
time 1300000. -/
theorem C4_witness :
    validTimerConfig pomodoroDefault ∧
    (∀ t ∈ allFireTimes 0 pomodoroDefault, (0:Int) < t) ∧
    (∃ t ∈ allFireTimes 0 pomodoroDefault, t ≤ (1300000:Int)) ∧
    ((scheduleWarningsForMode 0 0 pomodoroDefault).length =
        pomodoroDefault.warnings.length + 1 ∧
      (scheduleWarningsForMode 1300000 0 pomodoroDefault).length <
        pomodoroDefault.warnings.length + 1 ∧
      (∀ t ∈ scheduleWarningsForMode 500 0 pomodoroDefault, (500:Int) < t)) :=
  ⟨by decide, by decide, by decide,
   C4_scheduler_count pomodoroDefault (by decide) 0 0 1300000 0 500 0
     (by decide) (by decide)⟩

/-- C5 counterexample: re-arming through start() with an active pomodoro
session in the store computes the fixed claude-max fire times (the 5-hour
schedule against the original start time), not the absolute times of the
original pomodoro arming. -/
theorem C5_counterexample :
    (docPomodoro.sessions.get? 0).map Session.timerConfig = some (some pomodoroDefault) ∧
    (start envMid "pomodoro" none [] (some docPomodoro)).armed =
      [16200000, 17400000, 18000000] ∧
    scheduleWarningsForMode 0 0 pomodoroDefault = [1200000, 1500000] ∧
    (start envMid "pomodoro" none [] (some docPomodoro)).armed ≠
      scheduleWarningsForMode 0 0 pomodoroDefault :=
  ⟨by decide, by decide, by decide, by decide⟩

/-- C5 (amended): start() with an active session leaves the store file
untouched and re-arms with the fixed default schedule (scheduleWarnings,
the 5-hour claude-max constants) against the original startTime of the
first active session; the re-armed times coincide with a recomputation from
the captured config exactly for the claude-max configuration. -/
theorem C5_rearm_fixed_config (env : Env) (d : StoreDoc) (s : Session) (mode : String)
    (cd : Option Int) (tags : List String) (now' s0 : Int)
    (hv : d.version = some "2.0.0")
    (hact : (d.sessions.filter (fun x => x.endTime.isNone)).head? = some s) :
    (start env mode cd tags (some d)).armed = scheduleWarnings env.now s.startTime ∧
    (start env mode cd tags (some d)).file = some d ∧
    scheduleWarningsForMode now' s0 claudeMaxDefault = scheduleWarnings now' s0 := by
  have h1 : (startData env (some d)).sessions = d.sessions := by
    rw [startData_sessions]
    show (migrateDataStructure env d).sessions = d.sessions
    rw [migrate_of_current env d hv]
  have h2 := start_file_active env mode cd tags (some d) s (by rw [h1]; exact hact)
  rw [h2]
  exact ⟨rfl, rfl, scheduleWarningsForMode_claudeMax now' s0⟩

/-- C5 witness: the re-arm theorem evaluated on the store holding the
active pomodoro session, ten minutes in. -/
theorem C5_witness :
    (docPomodoro.version = some "2.0.0" ∧
     (docPomodoro.sessions.filter (fun x => x.endTime.isNone)).head? = some sPomodoro) ∧
    ((start envMid "claude-max" none [] (some docPomodoro)).armed =
        scheduleWarnings envMid.now sPomodoro.startTime ∧
      (start envMid "claude-max" none [] (some docPomodoro)).file = some docPomodoro ∧
      scheduleWarningsForMode 0 0 claudeMaxDefault = scheduleWarnings 0 0) :=
  ⟨⟨rfl, by decide⟩,
   C5_rearm_fixed_config envMid docPomodoro sPomodoro "claude-max" none [] 0 0
     rfl (by decide)⟩

/-- C6 counterexample: registering a timer mode whose duration is negative
and whose warning offset is not below the duration raises nothing, reports
success and changes the stored timer modes - there is no ValidationError
path in Config.setTimerMode. -/
theorem C6_counterexample :
    (setTimerMode true cfgW "bad" badModeInput).2 = true ∧
    (setTimerMode true cfgW "bad" badModeInput).1.timerModes.lookup "bad" =
      some { name := "Bad", duration := -5, warnings := [999999999], autoEnd := false,
             breakDuration := none, description := "Custom timer mode" } ∧
    ¬ (0 < (-5 : Int)) ∧ ¬ ((999999999 : Int) < (-5 : Int)) ∧
    (setTimerMode true cfgW "bad" badModeInput).1 ≠ cfgW := by
  refine ⟨rfl, by decide, by decide, by decide, by decide⟩

/-- C6 (amended): Config.setTimerMode performs no validation: for every
input it stores the normalized literal (falsy fields replaced by defaults)
under the mode name, leaves every other mode unchanged, and returns the
file-write outcome. -/
theorem C6_register_always_stores (fsOk : Bool) (cfg : Config) (mode k : String)
    (c : TimerModeInput) (hk : k ≠ mode) :
    (setTimerMode fsOk cfg mode c).1.timerModes.lookup mode =
      some (normalizeTimerMode mode c) ∧
    (setTimerMode fsOk cfg mode c).1.timerModes.lookup k = cfg.timerModes.lookup k ∧
    (setTimerMode fsOk cfg mode c).2 = fsOk :=
  ⟨lookup_setAssoc_self mode _ cfg.timerModes,
   lookup_setAssoc_ne mode k _ hk cfg.timerModes, rfl⟩

/-- C6 witness: the always-stores theorem evaluated on the invalid
registration argument. -/
theorem C6_witness :
    ("pomodoro" : String) ≠ "bad" ∧
    ((setTimerMode true cfgW "bad" badModeInput).1.timerModes.lookup "bad" =
        some (normalizeTimerMode "bad" badModeInput) ∧
      (setTimerMode true cfgW "bad" badModeInput).1.timerModes.lookup "pomodoro" =
        cfgW.timerModes.lookup "pomodoro" ∧
      (setTimerMode true cfgW "bad" badModeInput).2 = true) :=
  ⟨by decide, C6_register_always_stores true cfgW "bad" "pomodoro" badModeInput (by decide)⟩

/-- C7 counterexample: loadData performs no rollover. The stored daily-reset
stamp of docStale is more than 24 hours old at time 90000000, yet the
loaded document still carries the accumulated 100 ms and the old stamp. -/
theorem C7_counterexample :
    docStale.lastReset = some 0 ∧
    daysSinceAtLeast envLate.now 0 1 ∧
    docStale.totalUsage = some 100 ∧
    (loadData envLate (some docStale)).totalUsage = some 100 ∧
    (loadData envLate (some docStale)).lastReset = some 0 :=
  ⟨rfl, by decide, rfl, by decide, by decide⟩

/-- C7 (amended): the rollovers live in start(), not in load(): load()
returns a current document unchanged; the daily reset block of start()
zeroes the accumulator and advances the stamp when it is at least a day
old, and the rollovers are idempotent - re-running them at the same instant
or later within the same 24h window changes nothing. -/
theorem C7_rollover_in_start (env : Env) (d : StoreDoc) (now now' t : Int)
    (hv : d.version = some "2.0.0")
    (ht : d.lastReset = some t)
    (hdue : daysSinceAtLeast now t 1)
    (hle : now ≤ now') (hwin : now' < now + msPerDay) :
    loadData env (some d) = d ∧
    (dailyRollover now d).totalUsage = some 0 ∧
    (dailyRollover now d).lastReset = some now ∧
    dailyRollover now' (dailyRollover now d) = dailyRollover now d ∧
    dailyRollover now (dailyRollover now d) = dailyRollover now d ∧
    monthlyRollover now (monthlyRollover now d) = monthlyRollover now d := by
  have hfire := daily_step_due now t d ht hdue
  refine ⟨migrate_of_current env d hv, ?_, ?_, ?_, dailyRollover_idem now d,
    monthlyRollover_idem now d⟩
  · rw [hfire]
  · rw [hfire]
  · rw [hfire]
    exact daily_step_notdue now' now _ rfl (by
      unfold daysSinceAtLeast
      unfold msPerDay at hwin ⊢
      omega)

/-- C7 witness: the rollover theorem evaluated on the stale document a day
later. -/
theorem C7_witness :
    (docStale.version = some "2.0.0" ∧ docStale.lastReset = some 0 ∧
     daysSinceAtLeast 90000000 0 1 ∧ (90000000:Int) ≤ 90000100 ∧
     (90000100:Int) < 90000000 + msPerDay) ∧
    (loadData envA (some docStale) = docStale ∧
      (dailyRollover 90000000 docStale).totalUsage = some 0 ∧
      (dailyRollover 90000000 docStale).lastReset = some 90000000 ∧
      dailyRollover 90000100 (dailyRollover 90000000 docStale) =
        dailyRollover 90000000 docStale ∧
      dailyRollover 90000000 (dailyRollover 90000000 docStale) =
        dailyRollover 90000000 docStale ∧
      monthlyRollover 90000000 (monthlyRollover 90000000 docStale) =
        monthlyRollover 90000000 docStale) :=
  ⟨⟨rfl, rfl, by decide, by decide, by decide⟩,
   C7_rollover_in_start envA docStale 90000000 90000100 0 rfl rfl
     (by decide) (by decide) (by decide)⟩

/-- C8: the external-event handlers are not idempotent against duplicate
delivery. Delivering the same JSONL entry (5 input, 7 output tokens) twice
leaves the detector accumulator at twice the usage, and the session_updated
handler then writes the doubled counters into the tracked store session. -/
theorem C8_duplicate_event_double_counts :
    (detOnce.lookup "ext-9").map (fun sd => sd.tokens) =
      some { input := 5, output := 7, cacheCreate := 0, cacheRead := 0 } ∧
    detTwice.lookup "ext-9" = some sdTwice ∧
    sdTwice.tokens = { input := 10, output := 14, cacheCreate := 0, cacheRead := 0 } ∧
    detTwice ≠ detOnce ∧
    ((sessionUpdatedHandler envA sdTwice (some docExt)).bind
        (fun d => d.sessions.get? 0)).map Session.tokens =
      some (some { input := 10, output := 14, cacheCreate := 0, cacheRead := 0 }) := by
  refine ⟨by decide, by decide, rfl, by decide, by decide⟩

/-- C9 counterexample: save(load()) rewrites more than the last-update
stamp: the claudeCodeStatus field is re-stamped with the current CLI probe
result on every save, and differs here from the loaded value. -/
theorem C9_counterexample :
    loadData envA (some docStale) = docStale ∧
    docStale.claudeCodeStatus = none ∧
    (saveData envA (loadData envA (some docStale))).claudeCodeStatus = some statusA ∧
    (saveData envA (loadData envA (some docStale))).claudeCodeStatus ≠
      (loadData envA (some docStale)).claudeCodeStatus :=
  ⟨by decide, rfl, by decide, by decide⟩

/-- C9 (amended): save(load()) preserves every session record, counter,
stamp and the version; exactly the lastUpdate stamp and the
claudeCodeStatus field are overwritten by save. -/
theorem C9_roundtrip_fields (env : Env) (file : Option StoreDoc) :
    (saveData env (loadData env file)).sessions = (loadData env file).sessions ∧
    (saveData env (loadData env file)).version = (loadData env file).version ∧
    (saveData env (loadData env file)).totalUsage = (loadData env file).totalUsage ∧
    (saveData env (loadData env file)).lastReset = (loadData env file).lastReset ∧
    (saveData env (loadData env file)).monthlySessionCount =
      (loadData env file).monthlySessionCount ∧
    (saveData env (loadData env file)).lastMonthReset =
      (loadData env file).lastMonthReset ∧
    (saveData env (loadData env file)).autoDetection = (loadData env file).autoDetection ∧
    (saveData env (loadData env file)).lastUpdate = some env.now ∧
    (saveData env (loadData env file)).claudeCodeStatus = some env.claudeStatus :=
  ⟨rfl, rfl, rfl, rfl, rfl, rfl, rfl, rfl, rfl⟩

/-- C10: with two or more active sessions in the store, end() closes
exactly the first active session in insertion order - setting its endTime
and duration - adds only that duration to the daily accumulator, and leaves
every other session (in particular every other active session) unchanged. -/
theorem C10_end_closes_first_active (env : Env) (d : StoreDoc) (i : Nat) (s : Session)
    (u : Int) (j : Nat)
    (hv : d.version = some "2.0.0")
    (hfa : firstActiveIdx d.sessions = some i)
    (hs : d.sessions.get? i = some s)
    (hcnt : 2 ≤ countActive d.sessions)
    (hu : d.totalUsage = some u)
    (hj : j ≠ i) :
    ∃ d', endSession env (some d) = some d' ∧
      d'.sessions.length = d.sessions.length ∧
      d'.sessions.get? i =
        some { s with endTime := some env.now, duration := some (env.now - s.startTime) } ∧
      d'.sessions.get? j = d.sessions.get? j ∧
      d'.totalUsage = some (u + (env.now - s.startTime)) ∧
      countActive d'.sessions + 1 = countActive d.sessions := by
  have hload : loadData env (some d) = d := migrate_of_current env d hv
  have hc := closeFirstActive_closed env.now d.sessions i s hfa hs
  refine ⟨saveData env
      { d with
          sessions := (closeFirstActive env.now d.sessions).1
          totalUsage := jsAddNum d.totalUsage (env.now - s.startTime) },
    ?_, ?_, ?_, ?_, ?_, ?_⟩
  · simp only [endSession, hload, hc.2]
  · simp only [saveData]
    exact closeFirstActive_length env.now d.sessions
  · simp only [saveData]
    exact hc.1
  · simp only [saveData]
    exact closeFirstActive_other env.now d.sessions i hfa j hj
  · simp only [saveData, hu]
    rfl
  · simp only [saveData]
    exact closeFirstActive_countActive env.now d.sessions i hfa

/-- C10 witness: end() applied to the concrete store with two active
sessions closes the earlier one and leaves the later one active. -/
theorem C10_witness :
    (docTwoActive.version = some "2.0.0" ∧
     firstActiveIdx docTwoActive.sessions = some 0 ∧
     docTwoActive.sessions.get? 0 = some sActive1 ∧
     2 ≤ countActive docTwoActive.sessions ∧
     docTwoActive.totalUsage = some 7 ∧
     (1 : Nat) ≠ 0) ∧
    (∃ d', endSession envA (some docTwoActive) = some d' ∧
      d'.sessions.length = docTwoActive.sessions.length ∧
      d'.sessions.get? 0 =
        some { sActive1 with
                 endTime := some envA.now
                 duration := some (envA.now - sActive1.startTime) } ∧
      d'.sessions.get? 1 = docTwoActive.sessions.get? 1 ∧
      d'.totalUsage = some (7 + (envA.now - sActive1.startTime)) ∧
      countActive d'.sessions + 1 = countActive docTwoActive.sessions) :=
  ⟨⟨rfl, by decide, by decide, by decide, rfl, by decide⟩,
   C10_end_closes_first_active envA docTwoActive 0 sActive1 7 1
     rfl (by decide) (by decide) (by decide) rfl (by decide)⟩

end SessionTracker
